import Mathlib

/-!
# Verification of the address-management batch lifecycle engine

Shallow embedding of the core of the repository: the address Transform
functions (`_normalize_address_data`, `_determine_validation_status`,
`_process_address_recognition`, and the pydantic residential-indicator
coercion), the batch store (batches, items), and the lifecycle
operations of `ValidationService` and `RecognitionService`
(`validate_and_store_addresses`, `process_batch_validation`,
`reset_batch_for_processing`, `recognize_and_store_addresses`,
`process_recognition_batch`, the result readers, and the HTTP endpoint
wrappers around them).

Records (python dicts with string keys) are modelled as association
lists over a JSON-like value type.  The database is modelled as an
explicit store: an association list of batches (prepended on insert,
mirroring newest-first ordering by `created_at`) plus a list of item
rows carrying a monotone insertion sequence number standing for
`created_at`.  Each transactional block of the source becomes one pure
function on the store; the recognition worker, which commits several
times, additionally gets its committed micro-steps exposed so that
interleavings of two workers can be examined.
-/

namespace AddressMgmt

/-! ## Python string primitives

`str.upper` / `str.lower` / `str.strip` as used on address fields,
written over character lists so that concrete instances evaluate. -/

/-- Python `str.upper` on one ASCII character. -/
def pyUpperChar (c : Char) : Char :=
  if 97 ≤ c.toNat ∧ c.toNat ≤ 122 then Char.ofNat (c.toNat - 32) else c

/-- Python `str.lower` on one ASCII character. -/
def pyLowerChar (c : Char) : Char :=
  if 65 ≤ c.toNat ∧ c.toNat ≤ 90 then Char.ofNat (c.toNat + 32) else c

/-- Whitespace for `str.strip`. -/
def isPySpace (c : Char) : Bool :=
  c == ' ' ∨ c == '\t' ∨ c == '\n' ∨ c == '\r'

/-- Python `str.upper`. -/
def pyUpper (s : String) : String := String.mk (s.data.map pyUpperChar)

/-- Python `str.lower`. -/
def pyLower (s : String) : String := String.mk (s.data.map pyLowerChar)

/-- Python `str.strip`. -/
def pyStrip (s : String) : String :=
  String.mk (((s.data.dropWhile isPySpace).reverse.dropWhile isPySpace).reverse)

/-- A JSON-ish field value as found in address payload dicts:
a string, an integer (`postal_code` may be an int), or null. -/
inductive Value where
  | vStr (s : String)
  | vInt (n : Int)
  | vNull
deriving DecidableEq, Repr

/-- A raw address record: a python dict, i.e. an ordered association
list from field names to values. -/
abbrev Rec := List (String × Value)

/-- Dict lookup: first binding of the key, if any. -/
def lookupField (r : Rec) (k : String) : Option Value :=
  (r.find? (fun p => p.1 == k)).map (fun p => p.2)

/-- Python dict assignment `r[k] = v`: replaces the value in place when
the key is present, otherwise appends the new binding. -/
def setField (r : Rec) (k : String) (v : Value) : Rec :=
  if r.any (fun p => p.1 == k) then
    r.map (fun p => if p.1 == k then (p.1, v) else p)
  else r ++ [(k, v)]

/-- The pydantic `validate_residential_indicator` field validator of
`AddressInputSchema` (src/app/schemas/addresses.py), together with the
field default: an absent field becomes the default `"unknown"`; `None`
becomes `"unknown"`; a string is stripped and lower-cased and kept only
when it is one of `unknown`/`yes`/`no`; anything else becomes
`"unknown"`. -/
def coerceResidentialIndicator : Option Value → String
  | some (Value.vStr s) =>
      let n := (pyLower (pyStrip s))
      if n = "unknown" ∨ n = "yes" ∨ n = "no" then n else "unknown"
  | _ => "unknown"

/-- `AddressInputSchema.model_validate` followed by `model_dump`, as it
affects the record content: the residential-indicator field is coerced
(other fields pass through unchanged). -/
def coerceAir (r : Rec) : Rec :=
  setField r "address_residential_indicator"
    (Value.vStr (coerceResidentialIndicator
      (lookupField r "address_residential_indicator")))

/-- Per-field normalization rule of
`ValidationService._normalize_address_data`: string values are
stripped; the residential indicator is lower-cased and coerced into
`unknown`/`yes`/`no`; `country_code` is upper-cased; `email` is
lower-cased; every other string is upper-cased; non-strings pass
through. -/
def normalizeField (k : String) (v : Value) : Value :=
  match v with
  | Value.vStr s =>
      let c := pyStrip s
      if k = "address_residential_indicator" then
        let cl := (pyLower c)
        Value.vStr (if cl = "unknown" ∨ cl = "yes" ∨ cl = "no" then cl else "unknown")
      else if k = "country_code" then Value.vStr (pyUpper c)
      else if k = "email" then Value.vStr (pyLower c)
      else Value.vStr (pyUpper c)
  | w => w

/-- `ValidationService._normalize_address_data`: normalize every field,
then default the residential indicator to `"unknown"` when the key is
absent. -/
def normalize_address_data (r : Rec) : Rec :=
  let nd := r.map (fun p => (p.1, normalizeField p.1 p.2))
  if nd.any (fun p => p.1 == "address_residential_indicator") then nd
  else nd ++ [("address_residential_indicator", Value.vStr "unknown")]

/-- A diagnostic message (`ValidationMessageSchema`). -/
structure VMessage where
  code : String
  message : String
  level : String
deriving DecidableEq, Repr

/-- Python truthiness test `not address.postal_code` on an optional
str-or-int field: `None`, the empty string and `0` are falsy. -/
def pyFalsy : Option Value → Bool
  | none => true
  | some Value.vNull => true
  | some (Value.vStr s) => s == ""
  | some (Value.vInt n) => n == 0

/-- String read of a field (the schema guarantees `country_code` is a
string; a missing or non-string field reads as `""`). -/
def getStrField (r : Rec) (k : String) : String :=
  match lookupField r k with
  | some (Value.vStr s) => s
  | _ => ""

/-- `ValidationService._determine_validation_status`: a `US` country
code with a falsy postal code yields one `missing_postal_code` warning;
the status is always `"verified"`. -/
def determine_validation_status (r : Rec) : String × List VMessage :=
  if pyUpper (getStrField r "country_code") = "US"
      ∧ pyFalsy (lookupField r "postal_code") = true then
    ("verified",
      [⟨"missing_postal_code", "postal_code is recommended for US", "warning"⟩])
  else
    ("verified", [])

/-- Per-field rule of `RecognitionService._process_address_recognition`
(same shape as the validation rule, with the indicator coercion written
inline). -/
def recognizeField (k : String) (v : Value) : Value :=
  match v with
  | Value.vStr s =>
      let c := pyStrip s
      if k = "country_code" then Value.vStr (pyUpper c)
      else if k = "email" then Value.vStr (pyLower c)
      else if k = "address_residential_indicator" then
        let cl := pyLower (pyStrip c)
        Value.vStr (if cl = "unknown" ∨ cl = "yes" ∨ cl = "no" then cl else "unknown")
      else Value.vStr (pyUpper c)
  | w => w

/-- `RecognitionService._process_address_recognition`: normalize every
field, then force the residential indicator to `"unknown"` when the key
is absent or its value is `None`. -/
def process_address_recognition (r : Rec) : Rec :=
  let pd := r.map (fun p => (p.1, recognizeField p.1 p.2))
  match lookupField pd "address_residential_indicator" with
  | none => pd ++ [("address_residential_indicator", Value.vStr "unknown")]
  | some Value.vNull =>
      setField pd "address_residential_indicator" (Value.vStr "unknown")
  | some _ => pd

/-! ## Batch store (validation side) -/

/-- Batch status column (`BatchStatusType`). -/
inductive Status where
  | queued
  | processing
  | completed
  | failed
deriving DecidableEq, Repr

/-- A `ValidationBatch` row: mutable status plus the write-once request
payload (a nullable JSONB list; `None` and `[]` both behave as an empty
payload through python `or []` / truthiness, so both are modelled as
`[]`). -/
structure VBatch where
  status : Status
  requestPayload : List Rec
deriving DecidableEq, Repr

/-- A `ValidationItem` row.  `seq` is the insertion sequence number
standing for the monotone `created_at` timestamp. -/
structure VItem where
  batchId : Nat
  seq : Nat
  status : String
  original : Rec
  matched : Rec
  messages : List VMessage
deriving DecidableEq, Repr

/-- The validation tables: batches keyed by identifier (prepended on
insert, so the list order is newest-first as `ORDER BY created_at
DESC` returns them), item rows, the next fresh batch identifier and
the next insertion sequence number. -/
structure VStore where
  batches : List (Nat × VBatch)
  items : List VItem
  nextBatchId : Nat
  nextSeq : Nat
deriving DecidableEq, Repr

/-- Point lookup of a batch row (`SELECT ... WHERE id = :bid`). -/
def lookupVBatch (s : VStore) (bid : Nat) : Option VBatch :=
  (s.batches.find? (fun p => p.1 == bid)).map (fun p => p.2)

/-- Commit of an ORM status mutation `batch_record.status = st`. -/
def setVStatus (s : VStore) (bid : Nat) (st : Status) : VStore :=
  { s with batches :=
      s.batches.map (fun p => if p.1 == bid then (p.1, { p.2 with status := st }) else p) }

/-- `DELETE FROM address_validation_items WHERE batch_id = :bid`. -/
def deleteVItems (s : VStore) (bid : Nat) : VStore :=
  { s with items := s.items.filter (fun it => ¬ it.batchId = bid) }

/-- The existence probe `SELECT id ... WHERE batch_id = :bid LIMIT 1`
used by the idempotency guard. -/
def vHasItem (s : VStore) (bid : Nat) : Bool :=
  s.items.any (fun it => it.batchId == bid)

/-- Item rows of one batch, in creation order as stored
(filter preserves the insertion order of `items`). -/
def vItemsOf (s : VStore) (bid : Nat) : List VItem :=
  s.items.filter (fun it => it.batchId == bid)

/-- One `ValidationItem` as built by both processing paths from one
already-schema-validated record `d`: status and messages from
`_determine_validation_status`, original as submitted, matched from
`_normalize_address_data`. -/
def mkVItem (bid seq : Nat) (d : Rec) : VItem :=
  { batchId := bid
    seq := seq
    status := (determine_validation_status d).1
    original := d
    matched := normalize_address_data d
    messages := (determine_validation_status d).2 }

/-- The item rows for a list of schema-validated records, with
consecutive sequence numbers starting at `seq`. -/
def mkVItems (bid seq : Nat) : List Rec → List VItem
  | [] => []
  | d :: ds => mkVItem bid seq d :: mkVItems bid (seq + 1) ds

/-- Append freshly built item rows for `recs` (a `db_session.add` per
record inside the enclosing transaction). -/
def insertVItems (s : VStore) (bid : Nat) (recs : List Rec) : VStore :=
  { s with items := s.items ++ mkVItems bid s.nextSeq recs
           nextSeq := s.nextSeq + recs.length }

/-! ## ValidationService lifecycle operations

Each `async with db_session.begin()` block is one atomic transaction
and becomes one pure function on `VStore`.  Raw inputs arrive as
`list[AddressInputSchema]`; parsing applies the residential-indicator
coercion, so where the source calls `model_dump()` on a parsed schema
object the model applies `coerceAir` to the raw record. -/

/-- One per-record result of the synchronous path
(`ValidationResultSchema`).  In `validate_and_store_addresses` the
returned `original_address` re-applies the indicator coercion to the
dumped record (lines 117-127), which on an already-coerced record is
the record itself. -/
structure VResult where
  status : String
  original : Rec
  matched : Rec
  messages : List VMessage
deriving DecidableEq, Repr

/-- The per-record result built by the synchronous loop body from one
raw input record. -/
def mkVResult (r : Rec) : VResult :=
  let d := coerceAir r
  { status := (determine_validation_status d).1
    original := coerceAir d
    matched := normalize_address_data d
    messages := (determine_validation_status d).2 }

/-- `ValidationService.create_queued_batch`: persist the payload with
status `queued` and return the fresh identifier. -/
def create_queued_batch (s : VStore) (recs : List Rec) : VStore × Nat :=
  let bid := s.nextBatchId
  ({ s with batches := (bid, ⟨Status.queued, recs.map coerceAir⟩) :: s.batches
            nextBatchId := s.nextBatchId + 1 },
   bid)

/-- `ValidationService.validate_and_store_addresses` (the synchronous
path): in one transaction, persist a batch already marked `completed`,
write one item row per record, and return one result per record in
submission order. -/
def validate_and_store_addresses (s : VStore) (recs : List Rec) :
    VStore × Nat × List VResult :=
  let bid := s.nextBatchId
  let payload := recs.map coerceAir
  let s1 : VStore :=
    { s with batches := (bid, ⟨Status.completed, payload⟩) :: s.batches
             nextBatchId := s.nextBatchId + 1 }
  let s2 := insertVItems s1 bid payload
  (s2, bid, recs.map mkVResult)

/-- `ValidationService.process_batch_validation` (the worker routine):
one transaction that locks the batch row (`with_for_update`), returns
silently when the batch is unknown, no-ops when the batch is already
`completed` with an existing item, fails the batch when the stored
payload is empty, and otherwise replaces the items (delete then
re-insert from the stored payload, re-parsing each record) and marks
the batch `completed`.  The transient `processing` status is internal
to the transaction; the committed effect is modelled. -/
def process_batch_validation (s : VStore) (bid : Nat) : VStore :=
  match lookupVBatch s bid with
  | none => s
  | some b =>
    if b.status = Status.completed ∧ vHasItem s bid = true then s
    else if b.requestPayload = ([] : List Rec) then setVStatus s bid Status.failed
    else
      let s1 := setVStatus s bid Status.processing
      let s2 := deleteVItems s1 bid
      let s3 := insertVItems s2 bid (b.requestPayload.map coerceAir)
      setVStatus s3 bid Status.completed

/-- Outcome of `ValidationService.reset_batch_for_processing` as seen
by its caller: either the `RuntimeError("processing")` raise, or the
returned boolean. -/
inductive ResetOutcome where
  | raisedProcessing
  | returned (ok : Bool)
deriving DecidableEq, Repr

/-- `ValidationService.reset_batch_for_processing`: lock the batch row;
unknown batch returns `False`; a `processing` batch raises (the
transaction rolls back, nothing was mutated); an empty stored payload
commits status `failed` and returns `False`; otherwise commit status
`queued`, clear the items and return `True`. -/
def reset_batch_for_processing (s : VStore) (bid : Nat) : VStore × ResetOutcome :=
  match lookupVBatch s bid with
  | none => (s, ResetOutcome.returned false)
  | some b =>
    if b.status = Status.processing then (s, ResetOutcome.raisedProcessing)
    else if b.requestPayload = ([] : List Rec) then
      (setVStatus s bid Status.failed, ResetOutcome.returned false)
    else
      (deleteVItems (setVStatus s bid Status.queued) bid, ResetOutcome.returned true)

/-! ## Result reader (validation side) -/

/-- Creation-time order on item rows. -/
def seqLe (a b : VItem) : Prop := a.seq ≤ b.seq

instance instSeqLeDecidable : DecidableRel seqLe :=
  fun a b => Nat.decLe a.seq b.seq

instance instSeqLeTotal : IsTotal VItem seqLe :=
  ⟨fun a b => Nat.le_total a.seq b.seq⟩

instance instSeqLeTrans : IsTrans VItem seqLe :=
  ⟨fun _ _ _ hab hbc => Nat.le_trans hab hbc⟩

/-- Sort item rows by `seq`, modelling `ORDER BY created_at`. -/
def sortBySeq (l : List VItem) : List VItem := List.insertionSort seqLe l

/-- `ValidationService.retrieve_batch_results`: the item rows of the
batch ordered by creation time, each mapped to a result schema. -/
def retrieve_batch_results (s : VStore) (bid : Nat) : List VResult :=
  (sortBySeq (vItemsOf s bid)).map
    (fun it => ⟨it.status, it.original, it.matched, it.messages⟩)

/-- Batch info row (`BatchInfoSchema`): status and item count (outer
join and count, zero when no items exist). -/
structure BatchInfo where
  status : Status
  itemsCount : Nat
  requestPayload : List Rec
deriving DecidableEq, Repr

/-- `ValidationService.get_batch_info`: `None` exactly when the batch
identifier is unknown; an existing batch is reported with its current
item count (possibly zero, via the outer join). -/
def get_batch_info (s : VStore) (bid : Nat) : Option BatchInfo :=
  (lookupVBatch s bid).map
    (fun b => ⟨b.status, (vItemsOf s bid).length, b.requestPayload⟩)

/-- `ValidationService.remove_batch`: delete the batch and its items,
returning `False` when the identifier is unknown. -/
def remove_batch (s : VStore) (bid : Nat) : VStore × Bool :=
  match lookupVBatch s bid with
  | none => (s, false)
  | some _ =>
    ({ s with batches := s.batches.filter (fun p => ¬ p.1 = bid)
              items := s.items.filter (fun it => ¬ it.batchId = bid) },
     true)

/-! ## HTTP endpoint wrappers (`AddressEndpoints`) -/

/-- The observable outcome of an endpoint call. -/
inductive HttpOutcome where
  | ok
  | accepted202
  | notFound404
  | conflict409
deriving DecidableEq, Repr

/-- `AddressEndpoints.get_validation_results_endpoint`: 404 when the
result list is empty (unknown batch or existing batch with zero
items), otherwise the results. -/
def get_validation_results_endpoint (s : VStore) (bid : Nat) :
    HttpOutcome × List VResult :=
  let results := retrieve_batch_results s bid
  if results = ([] : List VResult) then (HttpOutcome.notFound404, [])
  else (HttpOutcome.ok, results)

/-- `AddressEndpoints.get_validation_batch_endpoint`: 404 exactly when
`get_batch_info` returns `None`. -/
def get_validation_batch_endpoint (s : VStore) (bid : Nat) :
    HttpOutcome × Option BatchInfo :=
  match get_batch_info s bid with
  | none => (HttpOutcome.notFound404, none)
  | some info => (HttpOutcome.ok, some info)

/-- `AddressEndpoints.requeue_validation_batch_endpoint`: the
`RuntimeError` raise maps to 409 Conflict, a `False` return maps to
404, a `True` return re-dispatches the job and answers 202. -/
def requeue_validation_batch_endpoint (s : VStore) (bid : Nat) :
    VStore × HttpOutcome :=
  match reset_batch_for_processing s bid with
  | (s1, ResetOutcome.raisedProcessing) => (s1, HttpOutcome.conflict409)
  | (s1, ResetOutcome.returned false) => (s1, HttpOutcome.notFound404)
  | (s1, ResetOutcome.returned true) => (s1, HttpOutcome.accepted202)

/-! ## Batch store (recognition side) -/

/-- A `RecognitionBatch` row. -/
structure RBatch where
  status : Status
  requestPayload : List Rec
deriving DecidableEq, Repr

/-- A `RecognitionItem` row: the `recognized` JSONB holds the original
and the recognized record. -/
structure RItem where
  batchId : Nat
  seq : Nat
  status : String
  original : Rec
  recognized : Rec
deriving DecidableEq, Repr

/-- The recognition tables. -/
structure RStore where
  batches : List (Nat × RBatch)
  items : List RItem
  nextBatchId : Nat
  nextSeq : Nat
deriving DecidableEq, Repr

/-- Point lookup of a recognition batch (`db_session.get`, no lock). -/
def lookupRBatch (s : RStore) (bid : Nat) : Option RBatch :=
  (s.batches.find? (fun p => p.1 == bid)).map (fun p => p.2)

/-- Committed status mutation on a recognition batch. -/
def setRStatus (s : RStore) (bid : Nat) (st : Status) : RStore :=
  { s with batches :=
      s.batches.map (fun p => if p.1 == bid then (p.1, { p.2 with status := st }) else p) }

/-- `DELETE FROM address_recognition_items WHERE batch_id = :bid`. -/
def deleteRItems (s : RStore) (bid : Nat) : RStore :=
  { s with items := s.items.filter (fun it => ¬ it.batchId = bid) }

/-- Item rows of one recognition batch, in stored order. -/
def rItemsOf (s : RStore) (bid : Nat) : List RItem :=
  s.items.filter (fun it => it.batchId == bid)

/-- One `RecognitionItem` built from the address record of one request (the
record of `request.address`, or the empty dict when absent): status is
the literal `"completed"`, the recognized record comes from
`_process_address_recognition`. -/
def mkRItem (bid seq : Nat) (d : Rec) : RItem :=
  { batchId := bid
    seq := seq
    status := "completed"
    original := d
    recognized := process_address_recognition d }

/-- The recognition item rows for a payload, with consecutive sequence
numbers. -/
def mkRItems (bid seq : Nat) : List Rec → List RItem
  | [] => []
  | d :: ds => mkRItem bid seq d :: mkRItems bid (seq + 1) ds

/-- Append freshly built recognition item rows. -/
def insertRItems (s : RStore) (bid : Nat) (recs : List Rec) : RStore :=
  { s with items := s.items ++ mkRItems bid s.nextSeq recs
           nextSeq := s.nextSeq + recs.length }

/-! ## RecognitionService lifecycle operations

A recognition request is `{text, address}`; the worker and the
synchronous path only use the address record (the empty dict when the
request carries no address), so payload entries are modelled as that
record. -/

/-- One recognition result (`RecognitionResultSchema`). -/
structure RResult where
  original : Rec
  recognized : Rec
deriving DecidableEq, Repr

/-- `RecognitionService.create_queued_recognition_batch`. -/
def create_queued_recognition_batch (s : RStore) (recs : List Rec) : RStore × Nat :=
  let bid := s.nextBatchId
  ({ s with batches := (bid, ⟨Status.queued, recs⟩) :: s.batches
            nextBatchId := s.nextBatchId + 1 },
   bid)

/-- `RecognitionService.recognize_and_store_addresses` (the synchronous
path): persist a batch marked `completed`, one item row per request,
one result per request in submission order, with one commit at the
close of the routine. -/
def recognize_and_store_addresses (s : RStore) (recs : List Rec) :
    RStore × Nat × List RResult :=
  let bid := s.nextBatchId
  let s1 : RStore :=
    { s with batches := (bid, ⟨Status.completed, recs⟩) :: s.batches
             nextBatchId := s.nextBatchId + 1 }
  let s2 := insertRItems s1 bid recs
  (s2, bid, recs.map (fun d => ⟨d, process_address_recognition d⟩))

/-- `RecognitionService.process_recognition_batch`, committed net
effect when run without interference: a plain unlocked `get`; silent
return when the batch is unknown or already `processing`/`completed`;
an empty payload commits `failed`; otherwise the routine commits
`processing`, then in a second transaction deletes the old items,
inserts the new ones and commits `completed`. -/
def process_recognition_batch (s : RStore) (bid : Nat) : RStore :=
  match lookupRBatch s bid with
  | none => s
  | some b =>
    if b.status = Status.processing ∨ b.status = Status.completed then s
    else if b.requestPayload = ([] : List Rec) then setRStatus s bid Status.failed
    else
      let s1 := setRStatus s bid Status.processing
      let s2 := deleteRItems s1 bid
      let s3 := insertRItems s2 bid b.requestPayload
      setRStatus s3 bid Status.completed

/-! ## A two-worker schedule of `process_recognition_batch`

`process_recognition_batch` takes no row lock (`db_session.get`) and
commits twice: once after setting `processing`, once after replacing
the items and setting `completed`.  Its committed store interactions
are exactly the micro-operations `lookupRBatch`, `setRStatus`,
`deleteRItems`, `insertRItems` used above.  Under READ COMMITTED, two
workers running the routine on the same identifier may interleave at
statement granularity as long as conflicting row writes stay in commit
order; the schedule below is such an interleaving.  Both workers read
the batch before either commits, so both observe `queued` and pass the
entry guard (the only mutual-exclusion check the routine has); worker
the item delete of worker B runs while no item rows exist yet; each status write
commits before the next conflicting write starts. -/

/-- The single payload record of the raced recognition batch. -/
def raceRec : Rec := [("address_line1", Value.vStr "221b baker st")]

/-- Initial store for the race: one `queued` recognition batch with a
one-record payload and no items. -/
def raceS0 : RStore :=
  { batches := [(0, ⟨Status.queued, [raceRec]⟩)]
    items := []
    nextBatchId := 1
    nextSeq := 0 }

/-- The interleaved two-worker schedule, applied to the shared store in
temporal order.  Worker A and worker B both read the batch from
`raceS0` (both see `queued`); then: A commits `processing`; B commits
`processing`; B executes its item delete (no rows exist); A executes
its item delete, inserts its items and commits `completed`; B inserts
its items and commits `completed`.  Each worker uses the payload it
read at its own `db_session.get`. -/
def raceFinal : RStore :=
  let bA := (lookupRBatch raceS0 0).getD ⟨Status.failed, []⟩
  let bB := (lookupRBatch raceS0 0).getD ⟨Status.failed, []⟩
  let s1 := setRStatus raceS0 0 Status.processing
  let s2 := setRStatus s1 0 Status.processing
  let s3 := deleteRItems s2 0
  let s4 := setRStatus (insertRItems (deleteRItems s3 0) 0 bA.requestPayload) 0 Status.completed
  setRStatus (insertRItems s4 0 bB.requestPayload) 0 Status.completed

/-! ## Concrete stores and records used by witnesses and counterexamples -/

/-- Concrete completed validation batch with one item, for the C1
witness. -/
def c1vs : VStore :=
  { batches := [(0, ⟨Status.completed, [[("address_line1", Value.vStr "x")]]⟩)]
    items := [⟨0, 0, "verified", [], [], []⟩]
    nextBatchId := 1
    nextSeq := 1 }

/-- Concrete completed recognition batch with one item, for the C1
witness. -/
def c1rs : RStore :=
  { batches := [(0, ⟨Status.completed, [[("address_line1", Value.vStr "x")]]⟩)]
    items := [⟨0, 0, "completed", [], []⟩]
    nextBatchId := 1
    nextSeq := 1 }

/-- Concrete stores refuting C3: an item-less `completed` batch with an
empty payload (exactly what the synchronous path stores for a
zero-record input), and a `failed` batch with a one-record payload. -/
def c3completedEmpty : VStore :=
  { batches := [(0, ⟨Status.completed, []⟩)]
    items := []
    nextBatchId := 1
    nextSeq := 0 }

/-- A `failed` batch with a stored payload, refuting terminality of
`failed` under the worker routine. -/
def c3failedBatch : VStore :=
  { batches := [(0, ⟨Status.failed, [[("address_line1", Value.vStr "x")]]⟩)]
    items := []
    nextBatchId := 1
    nextSeq := 0 }

/-- Concrete store with a `processing` batch, for the C4 witness. -/
def c4store : VStore :=
  { batches := [(7, ⟨Status.processing, [[("address_line1", Value.vStr "x")]]⟩)]
    items := []
    nextBatchId := 8
    nextSeq := 0 }

/-- Concrete store with a `completed` batch holding an empty payload,
for the C5 witness. -/
def c5store : VStore :=
  { batches := [(3, ⟨Status.completed, []⟩)]
    items := []
    nextBatchId := 4
    nextSeq := 0 }

/-- Concrete store with a `queued` empty-payload batch, for the C6
witness. -/
def c6store : VStore :=
  { batches := [(2, ⟨Status.queued, []⟩)]
    items := []
    nextBatchId := 3
    nextSeq := 0 }

/-- The example input record of the spec for the validation Transform. -/
def c7input : Rec :=
  [("address_line1", Value.vStr "1 main st"),
   ("country_code", Value.vStr "us"),
   ("address_residential_indicator", Value.vNull)]

/-- Empty validation store for the C8 round-trip witness. -/
def c8vempty : VStore := ⟨[], [], 0, 0⟩

/-- Empty recognition store for the C8 round-trip witness. -/
def c8rempty : RStore := ⟨[], [], 0, 0⟩

/-- Store for the C9 witness: batch `0` exists `queued` with zero
items; identifier `5` is unknown. -/
def c9store : VStore :=
  { batches := [(0, ⟨Status.queued, [[("address_line1", Value.vStr "x")]]⟩)]
    items := []
    nextBatchId := 1
    nextSeq := 0 }

/-- Foreign-key well-formedness: every item row references an existing
batch (the schema declares `batch_id` a foreign key, so the database
enforces this; it is an assumption only for arbitrary model stores). -/
def wfFK (s : VStore) : Bool :=
  s.items.all (fun it => s.batches.any (fun p => p.1 == it.batchId))

/-! ## Store lemmas -/

/-- Keyed in-place update of an association list, as `setVStatus` and
`setRStatus` perform it. -/
def updAt {β : Type} (bid : Nat) (f : β → β) (p : Nat × β) : Nat × β :=
  if p.1 == bid then (p.1, f p.2) else p

theorem setVStatus_batches (s : VStore) (bid : Nat) (st : Status) :
    (setVStatus s bid st).batches
      = s.batches.map (updAt bid (fun b => { b with status := st })) := rfl

theorem setRStatus_batches (s : RStore) (bid : Nat) (st : Status) :
    (setRStatus s bid st).batches
      = s.batches.map (updAt bid (fun b => { b with status := st })) := rfl

theorem find?_map_updAt {β : Type} (l : List (Nat × β)) (bid : Nat) (f : β → β) :
    (l.map (updAt bid f)).find? (fun p => p.1 == bid)
      = (l.find? (fun p => p.1 == bid)).map (fun p => (p.1, f p.2)) := by
  induction l with
  | nil => rfl
  | cons a l ih =>
    by_cases h : a.1 = bid
    · simp [updAt, List.find?, h]
    · have hb : (a.1 == bid) = false := by simp [h]
      simp [updAt, List.find?, hb, ih]

theorem lookupVBatch_setVStatus (s : VStore) (bid : Nat) (st : Status) :
    lookupVBatch (setVStatus s bid st) bid
      = (lookupVBatch s bid).map (fun b => { b with status := st }) := by
  unfold lookupVBatch
  rw [setVStatus_batches, find?_map_updAt]
  cases s.batches.find? (fun p => p.1 == bid) <;> rfl

theorem lookupRBatch_setRStatus (s : RStore) (bid : Nat) (st : Status) :
    lookupRBatch (setRStatus s bid st) bid
      = (lookupRBatch s bid).map (fun b => { b with status := st }) := by
  unfold lookupRBatch
  rw [setRStatus_batches, find?_map_updAt]
  cases s.batches.find? (fun p => p.1 == bid) <;> rfl

theorem map_updAt_updAt {β : Type} (l : List (Nat × β)) (bid : Nat) (f g : β → β) :
    (l.map (updAt bid f)).map (updAt bid g) = l.map (updAt bid (fun b => g (f b))) := by
  rw [List.map_map]
  apply List.map_congr_left
  intro p _
  by_cases h : p.1 = bid
  · simp [updAt, Function.comp, h]
  · have hb : (p.1 == bid) = false := by simp [h]
    simp [updAt, Function.comp, hb]

theorem setVStatus_setVStatus (s : VStore) (bid : Nat) (st st2 : Status) :
    setVStatus (setVStatus s bid st) bid st2 = setVStatus s bid st2 := by
  unfold setVStatus
  cases s with
  | mk batches items nb ns =>
    simp only [VStore.mk.injEq, and_true]
    exact map_updAt_updAt batches bid
      (fun b => { b with status := st }) (fun b => { b with status := st2 })

theorem setVStatus_items (s : VStore) (bid : Nat) (st : Status) :
    (setVStatus s bid st).items = s.items := rfl

theorem deleteVItems_batches (s : VStore) (bid : Nat) :
    (deleteVItems s bid).batches = s.batches := rfl

theorem insertVItems_batches (s : VStore) (bid : Nat) (recs : List Rec) :
    (insertVItems s bid recs).batches = s.batches := rfl

theorem lookupVBatch_deleteVItems (s : VStore) (bid bid2 : Nat) :
    lookupVBatch (deleteVItems s bid2) bid = lookupVBatch s bid := rfl

theorem lookupVBatch_insertVItems (s : VStore) (bid bid2 : Nat) (recs : List Rec) :
    lookupVBatch (insertVItems s bid2 recs) bid = lookupVBatch s bid := rfl

theorem vHasItem_setVStatus (s : VStore) (bid bid2 : Nat) (st : Status) :
    vHasItem (setVStatus s bid2 st) bid = vHasItem s bid := rfl

theorem mkVItems_ne_nil (bid seq : Nat) (d : Rec) (ds : List Rec) :
    mkVItems bid seq (d :: ds) = mkVItem bid seq d :: mkVItems bid (seq + 1) ds := rfl

theorem vHasItem_insertVItems (s : VStore) (bid : Nat) (recs : List Rec)
    (hne : recs ≠ []) : vHasItem (insertVItems s bid recs) bid = true := by
  cases recs with
  | nil => exact absurd rfl hne
  | cons d ds =>
    unfold vHasItem insertVItems
    simp [mkVItems_ne_nil, List.any_append, mkVItem]

/-! ## Path lemmas for `process_batch_validation`

One lemma per return path of the routine. -/

theorem process_validation_unknown (s : VStore) (bid : Nat)
    (h : lookupVBatch s bid = none) : process_batch_validation s bid = s := by
  unfold process_batch_validation
  rw [h]

theorem process_validation_guard (s : VStore) (bid : Nat) (b : VBatch)
    (h : lookupVBatch s bid = some b) (hc : b.status = Status.completed)
    (hi : vHasItem s bid = true) : process_batch_validation s bid = s := by
  unfold process_batch_validation
  rw [h]
  simp [hc, hi]

theorem process_validation_empty (s : VStore) (bid : Nat) (b : VBatch)
    (h : lookupVBatch s bid = some b)
    (hg : ¬ (b.status = Status.completed ∧ vHasItem s bid = true))
    (he : b.requestPayload = ([] : List Rec)) :
    process_batch_validation s bid = setVStatus s bid Status.failed := by
  unfold process_batch_validation
  rw [h]
  simp [hg, he]

theorem process_validation_full (s : VStore) (bid : Nat) (b : VBatch)
    (h : lookupVBatch s bid = some b)
    (hg : ¬ (b.status = Status.completed ∧ vHasItem s bid = true))
    (hne : b.requestPayload ≠ ([] : List Rec)) :
    process_batch_validation s bid
      = setVStatus
          (insertVItems
            (deleteVItems (setVStatus s bid Status.processing) bid)
            bid (b.requestPayload.map coerceAir))
          bid Status.completed := by
  unfold process_batch_validation
  rw [h]
  simp [hg, hne]

/-! ## Path lemmas for `process_recognition_batch` -/

theorem process_recognition_unknown (s : RStore) (bid : Nat)
    (h : lookupRBatch s bid = none) : process_recognition_batch s bid = s := by
  unfold process_recognition_batch
  rw [h]

theorem process_recognition_guard (s : RStore) (bid : Nat) (b : RBatch)
    (h : lookupRBatch s bid = some b)
    (hc : b.status = Status.processing ∨ b.status = Status.completed) :
    process_recognition_batch s bid = s := by
  unfold process_recognition_batch
  rw [h]
  simp [hc]

theorem process_recognition_empty (s : RStore) (bid : Nat) (b : RBatch)
    (h : lookupRBatch s bid = some b)
    (hg : ¬ (b.status = Status.processing ∨ b.status = Status.completed))
    (he : b.requestPayload = ([] : List Rec)) :
    process_recognition_batch s bid = setRStatus s bid Status.failed := by
  unfold process_recognition_batch
  rw [h]
  simp [hg, he]

theorem setRStatus_items (s : RStore) (bid : Nat) (st : Status) :
    (setRStatus s bid st).items = s.items := rfl

/-! ## Idempotence of the locked validation worker

`process_batch_validation` is one transaction holding the exclusive
row lock from its first read to its commit, so two concurrent
invocations serialize: the later one runs on the committed result of
the earlier one.  Idempotence of the function therefore captures the
exactly-one-full-pass property for the validation kind. -/

theorem process_batch_validation_idem (s : VStore) (bid : Nat) :
    process_batch_validation (process_batch_validation s bid) bid
      = process_batch_validation s bid := by
  cases h : lookupVBatch s bid with
  | none =>
    rw [process_validation_unknown s bid h, process_validation_unknown s bid h]
  | some b =>
    by_cases hg : b.status = Status.completed ∧ vHasItem s bid = true
    · rw [process_validation_guard s bid b h hg.1 hg.2,
        process_validation_guard s bid b h hg.1 hg.2]
    · by_cases he : b.requestPayload = ([] : List Rec)
      · rw [process_validation_empty s bid b h hg he]
        have hl : lookupVBatch (setVStatus s bid Status.failed) bid
            = some { b with status := Status.failed } := by
          rw [lookupVBatch_setVStatus, h]
          rfl
        have hg2 : ¬ (({ b with status := Status.failed } : VBatch).status
            = Status.completed ∧ vHasItem (setVStatus s bid Status.failed) bid = true) := by
          intro hcontra
          exact Status.noConfusion hcontra.1
        rw [process_validation_empty (setVStatus s bid Status.failed) bid
            { b with status := Status.failed } hl hg2 he]
        exact setVStatus_setVStatus s bid Status.failed Status.failed
      · rw [process_validation_full s bid b h hg he]
        set s3 := setVStatus
          (insertVItems (deleteVItems (setVStatus s bid Status.processing) bid)
            bid (b.requestPayload.map coerceAir)) bid Status.completed with hs3
        have hl3 : lookupVBatch s3 bid = some { b with status := Status.completed } := by
          rw [hs3, lookupVBatch_setVStatus, lookupVBatch_insertVItems,
            lookupVBatch_deleteVItems, lookupVBatch_setVStatus, h]
          rfl
        have hmapne : b.requestPayload.map coerceAir ≠ ([] : List Rec) := by
          intro hmap
          exact he (List.map_eq_nil_iff.mp hmap)
        have hi3 : vHasItem s3 bid = true := by
          rw [hs3, vHasItem_setVStatus]
          exact vHasItem_insertVItems _ bid _ hmapne
        exact process_validation_guard s3 bid { b with status := Status.completed }
          hl3 rfl hi3

/-! ## Freshly inserted items are exactly what the reader sees -/

theorem mkVItems_filter_self (bid seq : Nat) (ds : List Rec) :
    (mkVItems bid seq ds).filter (fun it => it.batchId == bid) = mkVItems bid seq ds := by
  induction ds generalizing seq with
  | nil => rfl
  | cons d ds ih =>
    rw [mkVItems]
    simp only [List.filter_cons]
    rw [ih (seq + 1)]
    simp [mkVItem]

theorem vItemsOf_empty_of_not_hasItem (s : VStore) (bid : Nat)
    (h : vHasItem s bid = false) : vItemsOf s bid = [] := by
  unfold vItemsOf
  rw [List.filter_eq_nil_iff]
  intro it hit
  unfold vHasItem at h
  simp only [List.any_eq_false] at h
  exact h it hit

theorem vItemsOf_insertVItems_fresh (s : VStore) (bid : Nat) (recs : List Rec)
    (h : vHasItem s bid = false) :
    vItemsOf (insertVItems s bid recs) bid = mkVItems bid s.nextSeq recs := by
  unfold vItemsOf insertVItems
  simp only [List.filter_append]
  rw [mkVItems_filter_self]
  have he : vItemsOf s bid = [] := vItemsOf_empty_of_not_hasItem s bid h
  unfold vItemsOf at he
  rw [he, List.nil_append]

theorem mkRItems_filter_self (bid seq : Nat) (ds : List Rec) :
    (mkRItems bid seq ds).filter (fun it => it.batchId == bid) = mkRItems bid seq ds := by
  induction ds generalizing seq with
  | nil => rfl
  | cons d ds ih =>
    rw [mkRItems]
    simp only [List.filter_cons]
    rw [ih (seq + 1)]
    simp [mkRItem]

theorem rItemsOf_empty_of_not_hasItem (s : RStore) (bid : Nat)
    (h : s.items.any (fun it => it.batchId == bid) = false) : rItemsOf s bid = [] := by
  unfold rItemsOf
  rw [List.filter_eq_nil_iff]
  intro it hit
  simp only [List.any_eq_false] at h
  exact h it hit

theorem rItemsOf_insertRItems_fresh (s : RStore) (bid : Nat) (recs : List Rec)
    (h : s.items.any (fun it => it.batchId == bid) = false) :
    rItemsOf (insertRItems s bid recs) bid = mkRItems bid s.nextSeq recs := by
  unfold rItemsOf insertRItems
  simp only [List.filter_append]
  rw [mkRItems_filter_self]
  have he : rItemsOf s bid = [] := rItemsOf_empty_of_not_hasItem s bid h
  unfold rItemsOf at he
  rw [he, List.nil_append]

/-! ## Claims -/

/-- C1: for every batch whose status is `completed` and which has at
least one existing item, invoking the worker processing routine (the
validation and the recognition variant) is a no-op: the store —
batch status and item rows — is unchanged, no duplicate rows appear,
and a second invocation in sequence is equally a no-op. -/
theorem c1_processBatch_noop_on_completed_with_items
    (s : VStore) (bid : Nat) (b : VBatch)
    (h : lookupVBatch s bid = some b) (hc : b.status = Status.completed)
    (hi : vHasItem s bid = true)
    (rs : RStore) (rbid : Nat) (rb : RBatch)
    (hr : lookupRBatch rs rbid = some rb) (hrc : rb.status = Status.completed)
    (_hri : rs.items.any (fun it => it.batchId == rbid) = true) :
    process_batch_validation s bid = s
      ∧ process_batch_validation (process_batch_validation s bid) bid = s
      ∧ process_recognition_batch rs rbid = rs
      ∧ process_recognition_batch (process_recognition_batch rs rbid) rbid = rs := by
  have h1 : process_batch_validation s bid = s :=
    process_validation_guard s bid b h hc hi
  have h2 : process_recognition_batch rs rbid = rs :=
    process_recognition_guard rs rbid rb hr (Or.inr hrc)
  refine ⟨h1, ?_, h2, ?_⟩
  · rw [h1, h1]
  · rw [h2, h2]

/-- Witness for C1 at a concrete completed-with-items store. -/
theorem c1_witness :
    process_batch_validation c1vs 0 = c1vs
      ∧ process_recognition_batch c1rs 0 = c1rs :=
  ⟨(c1_processBatch_noop_on_completed_with_items c1vs 0
      ⟨Status.completed, [[("address_line1", Value.vStr "x")]]⟩ (by decide) rfl (by decide)
      c1rs 0 ⟨Status.completed, [[("address_line1", Value.vStr "x")]]⟩ (by decide) rfl
      (by decide)).1,
   (c1_processBatch_noop_on_completed_with_items c1vs 0
      ⟨Status.completed, [[("address_line1", Value.vStr "x")]]⟩ (by decide) rfl (by decide)
      c1rs 0 ⟨Status.completed, [[("address_line1", Value.vStr "x")]]⟩ (by decide) rfl
      (by decide)).2.2.1⟩

/-- C2 counterexample: the claim asserts every asynchronous processing
attempt — recognition included — holds an exclusive row lock for one
whole processing transaction, so that of two concurrent attempts
exactly one performs a full processing pass.
`process_recognition_batch` takes no lock (a plain `db_session.get`)
and commits twice, so its committed micro-operations can interleave.
In the schedule `raceFinal` both workers read the batch while it is
still `queued` (first conjunct: the entry guard passes for both),
both then perform the full item-writing pass, and the final store
holds two item rows for the one-record payload — a duplicate row —
whereas the serial run produces one. -/
theorem c2_counterexample_recognition_unlocked_race :
    lookupRBatch raceS0 0 = some ⟨Status.queued, [raceRec]⟩
      ∧ ¬ (Status.queued = Status.processing ∨ Status.queued = Status.completed)
      ∧ [raceRec] ≠ ([] : List Rec)
      ∧ (rItemsOf raceFinal 0).length = 2
      ∧ (rItemsOf (process_recognition_batch raceS0 0) 0).length = 1 := by
  decide

/-- C2 (amended): only the validation worker routine acquires the
exclusive row lock at the start of the processing attempt and holds it
for the one enclosing transaction; two concurrent validation attempts
therefore serialize, and because the routine is idempotent the second
attempt is a no-op — exactly one full processing pass happens.  The
recognition variant enjoys no such protection (see the
counterexample). -/
theorem c2_validation_processBatch_idempotent (s : VStore) (bid : Nat) :
    process_batch_validation (process_batch_validation s bid) bid
      = process_batch_validation s bid :=
  process_batch_validation_idem s bid

/-- C3 counterexample: `completed` and `failed` are not terminal under
the worker routine.  `process_batch_validation` moves an item-less
`completed` batch with empty payload to `failed` (refuting the claim
that processBatch leaves the status of every completed batch
unchanged and never transitions completed to failed), and re-processes
a `failed` batch with a stored payload to `completed` (refuting that
no operation besides requeue changes the status of a failed batch). -/
theorem c3_counterexample_not_terminal :
    lookupVBatch c3completedEmpty 0 = some ⟨Status.completed, []⟩
      ∧ (lookupVBatch (process_batch_validation c3completedEmpty 0) 0).map VBatch.status
          = some Status.failed
      ∧ lookupVBatch c3failedBatch 0
          = some ⟨Status.failed, [[("address_line1", Value.vStr "x")]]⟩
      ∧ (lookupVBatch (process_batch_validation c3failedBatch 0) 0).map VBatch.status
          = some Status.completed := by
  decide

/-- C3 (amended): `completed` and `failed` are attractors rather than
frozen terminal states.  The worker routine leaves a `completed` batch
unchanged when it has at least one existing item (for the recognition
variant, every `completed` batch is left unchanged, second conjunct),
but it may re-process a `failed` or item-less `completed` batch; what
always holds is that the committed status of an existing batch after
`process_batch_validation` is `completed` or `failed` — never `queued`
or `processing` — with the stored payload untouched (first
conjunct). -/
theorem c3_amended_terminal_attractor
    (s : VStore) (bid : Nat) (b : VBatch) (h : lookupVBatch s bid = some b) :
    (∃ b2, lookupVBatch (process_batch_validation s bid) bid = some b2
        ∧ (b2.status = Status.completed ∨ b2.status = Status.failed)
        ∧ b2.requestPayload = b.requestPayload)
      ∧ (∀ rs rbid rb, lookupRBatch rs rbid = some rb →
          rb.status = Status.completed → process_recognition_batch rs rbid = rs) := by
  constructor
  · by_cases hg : b.status = Status.completed ∧ vHasItem s bid = true
    · refine ⟨b, ?_, Or.inl hg.1, rfl⟩
      rw [process_validation_guard s bid b h hg.1 hg.2]
      exact h
    · by_cases he : b.requestPayload = ([] : List Rec)
      · refine ⟨{ b with status := Status.failed }, ?_, Or.inr rfl, rfl⟩
        rw [process_validation_empty s bid b h hg he, lookupVBatch_setVStatus, h]
        rfl
      · refine ⟨{ b with status := Status.completed }, ?_, Or.inl rfl, rfl⟩
        rw [process_validation_full s bid b h hg he, lookupVBatch_setVStatus,
          lookupVBatch_insertVItems, lookupVBatch_deleteVItems,
          lookupVBatch_setVStatus, h]
        rfl
  · intro rs rbid rb hr hrc
    exact process_recognition_guard rs rbid rb hr (Or.inr hrc)

/-- Witness for C3 (amended) at a concrete `queued` batch: processing
it commits status `completed`. -/
theorem c3_amended_witness :
    (∃ b2, lookupVBatch
          (process_batch_validation
            ⟨[(0, ⟨Status.queued, [[("address_line1", Value.vStr "x")]]⟩)], [], 1, 0⟩ 0) 0
        = some b2
        ∧ (b2.status = Status.completed ∨ b2.status = Status.failed)
        ∧ b2.requestPayload = [[("address_line1", Value.vStr "x")]]) :=
  (c3_amended_terminal_attractor
    ⟨[(0, ⟨Status.queued, [[("address_line1", Value.vStr "x")]]⟩)], [], 1, 0⟩ 0
    ⟨Status.queued, [[("address_line1", Value.vStr "x")]]⟩ (by decide)).1

/-- C4: a requeue request against a batch currently `processing` never
succeeds: the service raises (modelled as `ResetOutcome.raisedProcessing`,
the transaction leaving the store — status and items — untouched) and
the endpoint surfaces 409 Conflict to the caller. -/
theorem c4_requeue_processing_conflict
    (s : VStore) (bid : Nat) (b : VBatch)
    (h : lookupVBatch s bid = some b) (hp : b.status = Status.processing) :
    reset_batch_for_processing s bid = (s, ResetOutcome.raisedProcessing)
      ∧ requeue_validation_batch_endpoint s bid = (s, HttpOutcome.conflict409) := by
  have h1 : reset_batch_for_processing s bid = (s, ResetOutcome.raisedProcessing) := by
    unfold reset_batch_for_processing
    rw [h]
    simp [hp]
  refine ⟨h1, ?_⟩
  unfold requeue_validation_batch_endpoint
  rw [h1]

/-- Witness for C4: requeuing the concrete `processing` batch yields
the raise and the 409, with the store unchanged. -/
theorem c4_witness :
    reset_batch_for_processing c4store 7 = (c4store, ResetOutcome.raisedProcessing)
      ∧ requeue_validation_batch_endpoint c4store 7 = (c4store, HttpOutcome.conflict409) :=
  c4_requeue_processing_conflict c4store 7
    ⟨Status.processing, [[("address_line1", Value.vStr "x")]]⟩ (by decide) rfl

/-- C5: requeuing an existing batch whose stored payload is empty and
whose status is not `processing` commits status `failed` (never
`queued`) and returns `False`, which the endpoint surfaces as the 404
negative result. -/
theorem c5_requeue_empty_payload_fails
    (s : VStore) (bid : Nat) (b : VBatch)
    (h : lookupVBatch s bid = some b) (he : b.requestPayload = ([] : List Rec))
    (hnp : ¬ b.status = Status.processing) :
    reset_batch_for_processing s bid
        = (setVStatus s bid Status.failed, ResetOutcome.returned false)
      ∧ lookupVBatch (reset_batch_for_processing s bid).1 bid
          = some { b with status := Status.failed }
      ∧ requeue_validation_batch_endpoint s bid
          = (setVStatus s bid Status.failed, HttpOutcome.notFound404) := by
  have h1 : reset_batch_for_processing s bid
      = (setVStatus s bid Status.failed, ResetOutcome.returned false) := by
    unfold reset_batch_for_processing
    rw [h]
    simp [hnp, he]
  refine ⟨h1, ?_, ?_⟩
  · rw [h1, lookupVBatch_setVStatus, h]
    rfl
  · unfold requeue_validation_batch_endpoint
    rw [h1]

/-- Witness for C5: the concrete requeue commits `failed` and answers
404. -/
theorem c5_witness :
    lookupVBatch (reset_batch_for_processing c5store 3).1 3
        = some ⟨Status.failed, []⟩
      ∧ requeue_validation_batch_endpoint c5store 3
          = (setVStatus c5store 3 Status.failed, HttpOutcome.notFound404) :=
  ⟨(c5_requeue_empty_payload_fails c5store 3 ⟨Status.completed, []⟩
      (by decide) rfl (by decide)).2.1,
   (c5_requeue_empty_payload_fails c5store 3 ⟨Status.completed, []⟩
      (by decide) rfl (by decide)).2.2⟩

/-- C6: a worker invocation that passes the idempotency guard on a
batch with an empty stored payload commits `failed` directly and stops:
the store changes only by that status write, and no item rows are
written (items unchanged).  First conjuncts: validation variant;
final conjunct: recognition variant, whose guard admits any batch not
`processing`/`completed`. -/
theorem c6_empty_payload_fails_without_items
    (s : VStore) (bid : Nat) (b : VBatch)
    (h : lookupVBatch s bid = some b)
    (hg : ¬ (b.status = Status.completed ∧ vHasItem s bid = true))
    (he : b.requestPayload = ([] : List Rec)) :
    process_batch_validation s bid = setVStatus s bid Status.failed
      ∧ (process_batch_validation s bid).items = s.items
      ∧ lookupVBatch (process_batch_validation s bid) bid
          = some { b with status := Status.failed }
      ∧ (∀ rs rbid rb, lookupRBatch rs rbid = some rb →
          ¬ (rb.status = Status.processing ∨ rb.status = Status.completed) →
          rb.requestPayload = ([] : List Rec) →
          process_recognition_batch rs rbid = setRStatus rs rbid Status.failed
            ∧ (process_recognition_batch rs rbid).items = rs.items) := by
  have h1 : process_batch_validation s bid = setVStatus s bid Status.failed :=
    process_validation_empty s bid b h hg he
  refine ⟨h1, ?_, ?_, ?_⟩
  · rw [h1, setVStatus_items]
  · rw [h1, lookupVBatch_setVStatus, h]
    rfl
  · intro rs rbid rb hr hrg hre
    have h2 : process_recognition_batch rs rbid = setRStatus rs rbid Status.failed :=
      process_recognition_empty rs rbid rb hr hrg hre
    refine ⟨h2, ?_⟩
    rw [h2, setRStatus_items]

/-- Witness for C6: processing the concrete empty-payload batch only
flips its status to `failed`. -/
theorem c6_witness :
    process_batch_validation c6store 2 = setVStatus c6store 2 Status.failed
      ∧ (process_batch_validation c6store 2).items = c6store.items :=
  ⟨(c6_empty_payload_fails_without_items c6store 2 ⟨Status.queued, []⟩
      (by decide) (by decide) rfl).1,
   (c6_empty_payload_fails_without_items c6store 2 ⟨Status.queued, []⟩
      (by decide) (by decide) rfl).2.1⟩

/-- C7: the validation Transform (schema coercion of the residential
indicator, as `model_validate` performs it, followed by
`_normalize_address_data`) maps the example record to upper-cased
address line and country code with the indicator coerced to
`"unknown"`; `_determine_validation_status` yields exactly one
`missing_postal_code` diagnostic at level `warning` and the per-record
status `"verified"`. -/
theorem c7_example_transform :
    normalize_address_data (coerceAir c7input)
        = [("address_line1", Value.vStr "1 MAIN ST"),
           ("country_code", Value.vStr "US"),
           ("address_residential_indicator", Value.vStr "unknown")]
      ∧ determine_validation_status (coerceAir c7input)
        = ("verified",
           [⟨"missing_postal_code", "postal_code is recommended for US", "warning"⟩]) := by
  decide

theorem lookupRBatch_insertRItems (s : RStore) (bid bid2 : Nat) (recs : List Rec) :
    lookupRBatch (insertRItems s bid2 recs) bid = lookupRBatch s bid := rfl

/-- C8: the synchronous path, for both variants, returns exactly one
result per submitted record in submission order (the result list is
the map of the per-record transform over the inputs), and in the same
transaction persists the batch with status `completed` together with
one item row per record; for a zero-length input this specializes to a
stored `completed` batch with zero items.  The freshness hypotheses
say no item row already carries the yet-unassigned identifier, which
the database guarantees for its generated keys. -/
theorem c8_sync_one_result_per_record
    (s : VStore) (recs : List Rec)
    (hfresh : vHasItem s s.nextBatchId = false)
    (rs : RStore) (rrecs : List Rec)
    (hrfresh : rs.items.any (fun it => it.batchId == rs.nextBatchId) = false) :
    (validate_and_store_addresses s recs).2.2 = recs.map mkVResult
      ∧ ((validate_and_store_addresses s recs).2.2).length = recs.length
      ∧ lookupVBatch (validate_and_store_addresses s recs).1
          (validate_and_store_addresses s recs).2.1
          = some ⟨Status.completed, recs.map coerceAir⟩
      ∧ vItemsOf (validate_and_store_addresses s recs).1
          (validate_and_store_addresses s recs).2.1
          = mkVItems s.nextBatchId s.nextSeq (recs.map coerceAir)
      ∧ (recognize_and_store_addresses rs rrecs).2.2
          = rrecs.map (fun d => (⟨d, process_address_recognition d⟩ : RResult))
      ∧ ((recognize_and_store_addresses rs rrecs).2.2).length = rrecs.length
      ∧ lookupRBatch (recognize_and_store_addresses rs rrecs).1
          (recognize_and_store_addresses rs rrecs).2.1
          = some ⟨Status.completed, rrecs⟩
      ∧ rItemsOf (recognize_and_store_addresses rs rrecs).1
          (recognize_and_store_addresses rs rrecs).2.1
          = mkRItems rs.nextBatchId rs.nextSeq rrecs := by
  refine ⟨rfl, ?_, ?_, ?_, rfl, ?_, ?_, ?_⟩
  · simp [validate_and_store_addresses]
  · show lookupVBatch
      (insertVItems
        { s with batches := (s.nextBatchId, ⟨Status.completed, recs.map coerceAir⟩) :: s.batches
                 nextBatchId := s.nextBatchId + 1 }
        s.nextBatchId (recs.map coerceAir))
      s.nextBatchId = some ⟨Status.completed, recs.map coerceAir⟩
    rw [lookupVBatch_insertVItems]
    unfold lookupVBatch
    simp [List.find?]
  · show vItemsOf
      (insertVItems
        { s with batches := (s.nextBatchId, ⟨Status.completed, recs.map coerceAir⟩) :: s.batches
                 nextBatchId := s.nextBatchId + 1 }
        s.nextBatchId (recs.map coerceAir))
      s.nextBatchId = mkVItems s.nextBatchId s.nextSeq (recs.map coerceAir)
    exact vItemsOf_insertVItems_fresh _ s.nextBatchId (recs.map coerceAir) hfresh
  · simp [recognize_and_store_addresses]
  · show lookupRBatch
      (insertRItems
        { rs with batches := (rs.nextBatchId, ⟨Status.completed, rrecs⟩) :: rs.batches
                  nextBatchId := rs.nextBatchId + 1 }
        rs.nextBatchId rrecs)
      rs.nextBatchId = some ⟨Status.completed, rrecs⟩
    rw [lookupRBatch_insertRItems]
    unfold lookupRBatch
    simp [List.find?]
  · show rItemsOf
      (insertRItems
        { rs with batches := (rs.nextBatchId, ⟨Status.completed, rrecs⟩) :: rs.batches
                  nextBatchId := rs.nextBatchId + 1 }
        rs.nextBatchId rrecs)
      rs.nextBatchId = mkRItems rs.nextBatchId rs.nextSeq rrecs
    exact rItemsOf_insertRItems_fresh _ rs.nextBatchId rrecs hrfresh

/-- Witness for C8 at the zero-length input: the returned identifier
names a stored batch with status `completed`, zero items, and the
result list is empty. -/
theorem c8_witness :
    lookupVBatch (validate_and_store_addresses c8vempty []).1
        (validate_and_store_addresses c8vempty []).2.1 = some ⟨Status.completed, []⟩
      ∧ vItemsOf (validate_and_store_addresses c8vempty []).1
          (validate_and_store_addresses c8vempty []).2.1 = []
      ∧ (validate_and_store_addresses c8vempty []).2.2 = [] :=
  ⟨(c8_sync_one_result_per_record c8vempty [] (by decide) c8rempty [] (by decide)).2.2.1,
   (c8_sync_one_result_per_record c8vempty [] (by decide) c8rempty [] (by decide)).2.2.2.1,
   (c8_sync_one_result_per_record c8vempty [] (by decide) c8rempty [] (by decide)).1⟩

/-- C9: the result reader distinguishes an empty item set from an
unknown batch.  The items-only endpoint answers 404 whenever the item
set is empty — for an existing batch with zero items, and (given
foreign-key well-formedness) for an unknown identifier.  The
batch-info endpoint answers 404 exactly when the identifier is
unknown, and reports an existing batch as a non-error result carrying
its item count (zero when empty).  Items are returned ordered by
creation time. -/
theorem c9_reader_distinguishes_empty_from_unknown (s : VStore) (bid : Nat) :
    (vItemsOf s bid = [] →
        get_validation_results_endpoint s bid = (HttpOutcome.notFound404, []))
      ∧ (wfFK s = true → lookupVBatch s bid = none →
          get_validation_results_endpoint s bid = (HttpOutcome.notFound404, []))
      ∧ ((get_validation_batch_endpoint s bid).1 = HttpOutcome.notFound404
          ↔ lookupVBatch s bid = none)
      ∧ (∀ b, lookupVBatch s bid = some b →
          get_validation_batch_endpoint s bid
            = (HttpOutcome.ok, some ⟨b.status, (vItemsOf s bid).length, b.requestPayload⟩))
      ∧ List.Sorted seqLe (sortBySeq (vItemsOf s bid)) := by
  have hempty : vItemsOf s bid = [] →
      get_validation_results_endpoint s bid = (HttpOutcome.notFound404, []) := by
    intro h
    unfold get_validation_results_endpoint retrieve_batch_results
    rw [h]
    rfl
  refine ⟨hempty, ?_, ?_, ?_, ?_⟩
  · intro hwf hnone
    apply hempty
    unfold vItemsOf
    rw [List.filter_eq_nil_iff]
    intro it hit hbid
    unfold wfFK at hwf
    rw [List.all_eq_true] at hwf
    have hany := hwf it hit
    rw [List.any_eq_true] at hany
    obtain ⟨p, hp, hpeq⟩ := hany
    unfold lookupVBatch at hnone
    rw [Option.map_eq_none'] at hnone
    have hnotp := List.find?_eq_none.mp hnone p hp
    apply hnotp
    have h1 : it.batchId = bid := by
      simpa using hbid
    have h2 : p.1 = it.batchId := by
      simpa using hpeq
    simp [h1, h2]
  · unfold get_validation_batch_endpoint get_batch_info
    cases h : lookupVBatch s bid <;> simp [h]
  · intro b h
    unfold get_validation_batch_endpoint get_batch_info
    rw [h]
    rfl
  · exact List.sorted_insertionSort seqLe (vItemsOf s bid)

/-- Witness for C9: the items-only endpoint answers 404 both for the
existing-but-empty batch 0 and the unknown identifier 5, while the
batch-info endpoint reports batch 0 with item count zero and answers
404 only for identifier 5. -/
theorem c9_witness :
    get_validation_results_endpoint c9store 0 = (HttpOutcome.notFound404, [])
      ∧ get_validation_results_endpoint c9store 5 = (HttpOutcome.notFound404, [])
      ∧ get_validation_batch_endpoint c9store 0
          = (HttpOutcome.ok,
             some ⟨Status.queued, 0, [[("address_line1", Value.vStr "x")]]⟩)
      ∧ (get_validation_batch_endpoint c9store 5).1 = HttpOutcome.notFound404 :=
  ⟨(c9_reader_distinguishes_empty_from_unknown c9store 0).1 (by decide),
   (c9_reader_distinguishes_empty_from_unknown c9store 5).2.1 (by decide) (by decide),
   (c9_reader_distinguishes_empty_from_unknown c9store 0).2.2.2.1
     ⟨Status.queued, [[("address_line1", Value.vStr "x")]]⟩ (by decide),
   (c9_reader_distinguishes_empty_from_unknown c9store 5).2.2.1.mpr (by decide)⟩

/-- C10: invoking the worker routine on an identifier with no stored
batch returns silently — the source routines return after the failed
lookup without raising, so the embedded functions are total and leave
the store untouched; no not-found error reaches the worker. -/
theorem c10_unknown_batch_silent_noop
    (s : VStore) (bid : Nat) (h : lookupVBatch s bid = none)
    (rs : RStore) (rbid : Nat) (hr : lookupRBatch rs rbid = none) :
    process_batch_validation s bid = s ∧ process_recognition_batch rs rbid = rs :=
  ⟨process_validation_unknown s bid h, process_recognition_unknown rs rbid hr⟩

/-- Witness for C10 at the empty stores. -/
theorem c10_witness :
    process_batch_validation (⟨[], [], 0, 0⟩ : VStore) 9 = (⟨[], [], 0, 0⟩ : VStore)
      ∧ process_recognition_batch (⟨[], [], 0, 0⟩ : RStore) 9 = (⟨[], [], 0, 0⟩ : RStore) :=
  c10_unknown_batch_silent_noop ⟨[], [], 0, 0⟩ 9 (by decide) ⟨[], [], 0, 0⟩ 9 (by decide)

end AddressMgmt
